import Mathlib

/-!
Verification of the undo/redo snapshot stack, dirty flag, and
change-notification classifier of `src/src/views/textbox.py` (class
`Textbox`).

The model is a shallow embedding of the Python code.  The document text is
kept as the logical content returned by `get("1.0", "end - 1c")`; the
tkinter widget additionally keeps an implicit trailing newline, which
`fullData` makes explicit.  Configuration values from `conf.py` (which is
not among the staged sources) are parameters; where a claim depends on
their default, the default is modelled from the spec and marked as such.

Fallible Python code is embedded in `Except PyErr`: a raised exception is
an `Except.error`.
-/

/-- Python exceptions the modelled code can raise. -/
inductive PyErr where
  | attributeError (attr : String)
  | indexError
  | unboundLocalError (v : String)
  | tclError (msg : String)
  deriving DecidableEq, Repr

/-- State of one `Textbox` widget, restricted to the fields the undo/redo
stack, the dirty flag and the tab title touch.  `text` is the document
content as `get("1.0", "end - 1c")` returns it; the widget itself stores
one extra implicit trailing newline (see `fullData`).  `title_updates`
logs, oldest first, every text pushed to the external tab-label updater
`tabs.set_properties`. -/
structure Textbox where
  text : String
  stack : List String
  stackcursor : Nat
  changed_since_saved : Bool
  file_name : String
  title_updates : List String
  deriving DecidableEq, Repr

/-- The full widget content: tkinter keeps an implicit trailing newline
after the document text. -/
def fullData (tb : Textbox) : List Char :=
  tb.text.data ++ ['\n']

/-- `get("1.0", "end - 1c")`: the whole widget content less its final
(implicit newline) character. -/
def getEndLess1c (tb : Textbox) : String :=
  String.mk (fullData tb).dropLast

/-- The state `Textbox.__init__` sets up: empty document (so the widget
holds just the implicit newline), empty snapshot deque, `stackcursor = 0`,
`changed_since_saved = False`.  The initial file name `cf.new_file_name`
comes from `conf.py`, which is not among the staged sources, so it is a
parameter. -/
def initState (new_file_name : String) : Textbox :=
  { text := ""
    stack := []
    stackcursor := 0
    changed_since_saved := false
    file_name := new_file_name
    title_updates := [] }

/-- Modelled from the spec: the snapshot capacity `cf.max_undo` lives in
`conf.py`, which is not among the staged sources; the spec fixes it as
configurable with default 10. -/
def MAX_UNDO_DEFAULT : Nat := 10

/-- `collections.deque` with `maxlen` set to `cap`: appending to a full
deque silently drops its leftmost (oldest) element; a deque with
`maxlen` 0 keeps nothing.  (A real deque never exceeds its `maxlen`, so
only arguments with `s.length ≤ cap` arise.) -/
def dequeAppend (cap : Nat) (s : List String) (x : String) : List String :=
  if cap = 0 then []
  else if s.length < cap then s ++ [x]
  else s.tail ++ [x]

/-- `Textbox.stackify` (textbox.py lines 129-131): push
`get("1.0", "end - 1c")` onto the deque and advance the cursor, capped by
the hardcoded literal 9 (`if self.stackcursor < 9`). -/
def stackify (cap : Nat) (tb : Textbox) : Textbox :=
  { tb with
    stack := dequeAppend cap tb.stack (getEndLess1c tb)
    stackcursor := if tb.stackcursor < 9 then tb.stackcursor + 1 else tb.stackcursor }

/-- `Textbox.undo` (lines 133-137) as written: when `stackcursor` is not 0
the first statement executed is `self.clear()`.  Neither `Textbox` nor any
class in `tkinter.Text`'s method resolution order defines `clear` (the
class defines `clear_all`), so Python raises `AttributeError` there,
before the cursor is decremented or any snapshot is read. -/
def undo (tb : Textbox) : Except PyErr Textbox :=
  if tb.stackcursor ≠ 0 then
    Except.error (PyErr.attributeError "clear")
  else
    Except.ok tb

/-- `Textbox.redo` (lines 139-143) as written: when
`len(self.stack) > self.stackcursor + 1` the first statement executed is
the same undefined `self.clear()`, so Python raises `AttributeError`
before the cursor or the document change. -/
def redo (tb : Textbox) : Except PyErr Textbox :=
  if tb.stack.length > tb.stackcursor + 1 then
    Except.error (PyErr.attributeError "clear")
  else
    Except.ok tb

/-- Modelled from the spec: the document-clearing step of undo/redo.  The
source writes `self.clear()`, a method that does not exist (see `undo`);
the spec's Document capability names the intended operation `clear()`,
realized in the class as `clear_all`, i.e. `delete("1.0", "end")`, which
leaves an empty document. -/
def clearDoc (tb : Textbox) : Textbox :=
  { tb with text := "" }

/-- `insert("0.0", s)`: tkinter clamps index `0.0` to the start of the
document, so the string is prepended. -/
def insertAtTop (s : String) (tb : Textbox) : Textbox :=
  { tb with text := s ++ tb.text }

/-- `Textbox.undo` with its clearing step modelled from the spec (see
`clearDoc`); everything else follows the source line by line: guard
`stackcursor != 0`, clear, decrement (guarded by `> 0`), then
`insert("0.0", self.stack[self.stackcursor])`, where an out-of-range
index raises `IndexError`. -/
def undoI (tb : Textbox) : Except PyErr Textbox :=
  if tb.stackcursor ≠ 0 then
    let tb1 := clearDoc tb
    let c := if tb1.stackcursor > 0 then tb1.stackcursor - 1 else tb1.stackcursor
    let tb2 := { tb1 with stackcursor := c }
    match tb2.stack.get? c with
    | some s => Except.ok (insertAtTop s tb2)
    | none => Except.error PyErr.indexError
  else
    Except.ok tb

/-- `Textbox.redo` with its clearing step modelled from the spec (see
`clearDoc`); everything else follows the source: guard
`len(self.stack) > self.stackcursor + 1`, clear, increment (guarded by
`< 9`), then `insert("0.0", self.stack[self.stackcursor])`. -/
def redoI (tb : Textbox) : Except PyErr Textbox :=
  if tb.stack.length > tb.stackcursor + 1 then
    let tb1 := clearDoc tb
    let c := if tb1.stackcursor < 9 then tb1.stackcursor + 1 else tb1.stackcursor
    let tb2 := { tb1 with stackcursor := c }
    match tb2.stack.get? c with
    | some s => Except.ok (insertAtTop s tb2)
    | none => Except.error PyErr.indexError
  else
    Except.ok tb

/-- A key event, reduced to the one attribute `check_on_key` inspects:
its Tk modifier-state word.  The source treats `state == 16` as "no
modifier keys are pressed", i.e. a character-producing edit. -/
structure KeyEvent where
  state : Nat
  deriving DecidableEq, Repr

/-- `Textbox.check_on_key` (lines 150-169): on every keystroke, if the
document is not yet marked changed and the event state is 16, set
`changed_since_saved` and push `f"{self.file_name} *"` to the tab-label
updater; then call `stackify`.  The scheduled footer update and the
syntax-highlighting branch (disabled configuration) touch none of the
modelled fields. -/
def check_on_key (cap : Nat) (tb : Textbox) (ev : KeyEvent) : Textbox :=
  let tb1 :=
    if tb.changed_since_saved = false ∧ ev.state = 16 then
      { tb with
        changed_since_saved := true
        title_updates := tb.title_updates ++ [tb.file_name ++ " *"] }
    else tb
  stackify cap tb1

/-- The state after the dirty-marking branch of `check_on_key`: flag set
and one title update `f"{self.file_name} *"` pushed to the tab-label
updater. -/
def markDirty (tb : Textbox) : Textbox :=
  { tb with
    changed_since_saved := true
    title_updates := tb.title_updates ++ [tb.file_name ++ " *"] }

/-- Run a sequence of key events through `check_on_key`. -/
def runKeys (cap : Nat) (tb : Textbox) (evs : List KeyEvent) : Textbox :=
  evs.foldl (check_on_key cap) tb

/-- Drive the tracker: set the document to each text in turn and call
`stackify`, as `check_on_key` does once per keystroke. -/
def recordAll (cap : Nat) (tb : Textbox) (texts : List String) : Textbox :=
  texts.foldl (fun s t => stackify cap { s with text := t }) tb

/-- The change-notification condition of `Textbox._proxy_for_line_numbers`
(lines 294-300), deciding whether `event_generate("<<Change>>")` fires:
`args[0] in ("insert", "replace", "delete")`, or the leading slices of
`args` equal `("mark", "set", "insert")`, `("xview", "moveto")`,
`("xview", "scroll")`, `("yview", "moveto")` or `("yview", "scroll")`.
`op` is `args[0]` and `rest` is `args[1:]`; a Python slice shorter than
the compared tuple is simply unequal to it, which `List.take` mirrors. -/
def proxyNotifies (op : String) (rest : List String) : Bool :=
  ["insert", "replace", "delete"].contains op ||
  (op :: rest).take 3 == ["mark", "set", "insert"] ||
  (op :: rest).take 2 == ["xview", "moveto"] ||
  (op :: rest).take 2 == ["xview", "scroll"] ||
  (op :: rest).take 2 == ["yview", "moveto"] ||
  (op :: rest).take 2 == ["yview", "scroll"]

/-- What one proxy interception produces: the lines printed, whether the
coalesced `<<Change>>` event was generated, and the returned value or the
exception that escapes. -/
structure ProxyOutcome where
  logged : List String
  notified : Bool
  result : Except PyErr String
  deriving Repr

/-- Rendering of an exception as `print(e)` would show it. -/
def errStr : PyErr → String
  | PyErr.attributeError a => "AttributeError: " ++ a
  | PyErr.indexError => "IndexError"
  | PyErr.unboundLocalError v => "UnboundLocalError: " ++ v
  | PyErr.tclError m => "TclError: " ++ m

/-- `Textbox._proxy_for_line_numbers` (lines 270-304).  `rawCall` is the
outcome of `self.tk.call(cmd)` on the renamed original widget.  With
`cf.dev_mode` set, an exception is caught and both the error and the
command are printed, but the local `result` is then never assigned, so
the final `return result` raises `UnboundLocalError`; without
`cf.dev_mode` the exception propagates at once and the notification
block is never reached. -/
def proxyRun (dev_mode : Bool) (op : String) (rest : List String)
    (rawCall : Except PyErr String) : ProxyOutcome :=
  match rawCall with
  | Except.ok r =>
    { logged := []
      notified := proxyNotifies op rest
      result := Except.ok r }
  | Except.error e =>
    if dev_mode then
      { logged := [errStr e, String.intercalate " " (op :: rest)]
        notified := proxyNotifies op rest
        result := Except.error (PyErr.unboundLocalError "result") }
    else
      { logged := []
        notified := false
        result := Except.error e }

/-- One transition of the tracker: a `stackify` under the default
capacity, or a successfully returning `undoI`/`redoI` step. -/
inductive Step : Textbox → Textbox → Prop where
  | snap (tb : Textbox) : Step tb (stackify MAX_UNDO_DEFAULT tb)
  | undoStep (tb tb2 : Textbox) : undoI tb = Except.ok tb2 → Step tb tb2
  | redoStep (tb tb2 : Textbox) : redoI tb = Except.ok tb2 → Step tb tb2

/-- States reachable from the freshly constructed widget by any sequence
of `stackify`, `undoI` and `redoI` calls. -/
inductive Reachable (f : String) : Textbox → Prop where
  | init : Reachable f (initState f)
  | step (s t : Textbox) : Reachable f s → Step s t → Reachable f t

/-- The last `cap` elements of a list (all of it when it is shorter). -/
def lastN (cap : Nat) (l : List String) : List String :=
  l.drop (l.length - cap)

/-- The tracker invariant under the default capacity: the cursor never
passes the number of stored snapshots, never passes the hardcoded bound 9,
and the deque never exceeds its capacity. -/
def TrackerInv (s : Textbox) : Prop :=
  s.stackcursor ≤ s.stack.length ∧ s.stackcursor ≤ 9 ∧
    s.stack.length ≤ MAX_UNDO_DEFAULT

/-! ## Helper lemmas -/

lemma getEndLess1c_eq (tb : Textbox) : getEndLess1c tb = tb.text := by
  cases h : tb.text with
  | mk d => simp [getEndLess1c, fullData, h]

lemma drop_len_add (u w : List String) (n : Nat) :
    (u ++ w).drop (u.length + n) = w.drop n := by
  induction u with
  | nil => simp
  | cons a u ih => simpa [Nat.succ_add] using ih

lemma dequeAppend_eq_lastN (cap : Nat) (s : List String) (x : String)
    (h : s.length ≤ cap) : dequeAppend cap s x = lastN cap (s ++ [x]) := by
  unfold dequeAppend lastN
  rcases Nat.lt_or_ge s.length cap with hlt | hge
  · have hcap : cap ≠ 0 := by omega
    have hle : s.length + 1 - cap = 0 := by omega
    simp [hcap, hlt, hle]
  · have heq : s.length = cap := le_antisymm h hge
    by_cases hcap : cap = 0
    · subst hcap
      have hnil : s = [] := List.eq_nil_of_length_eq_zero (by omega)
      subst hnil
      simp
    · have hlt2 : ¬ s.length < cap := by omega
      have hdrop : (s ++ [x]).length - cap = 1 := by
        simp only [List.length_append, List.length_cons, List.length_nil]
        omega
      rw [if_neg hcap, if_neg hlt2, hdrop]
      cases s with
      | nil => exact absurd heq.symm (by simpa using hcap)
      | cons a t => simp

lemma lastN_append (cap : Nat) (a b : List String) :
    lastN cap (lastN cap a ++ b) = lastN cap (a ++ b) := by
  by_cases h : a.length ≤ cap
  · have ha : lastN cap a = a := by
      unfold lastN
      rw [Nat.sub_eq_zero_of_le h, List.drop_zero]
    rw [ha]
  · push_neg at h
    unfold lastN
    have hl : (a.drop (a.length - cap) ++ b).length - cap = b.length := by
      simp only [List.length_append, List.length_drop]
      omega
    have key : (a ++ b).drop ((a ++ b).length - cap)
        = (a.drop (a.length - cap) ++ b).drop b.length := by
      calc (a ++ b).drop ((a ++ b).length - cap)
          = (a.take (a.length - cap) ++ (a.drop (a.length - cap) ++ b)).drop
              ((a.take (a.length - cap)).length + b.length) := by
            rw [← List.append_assoc, List.take_append_drop]
            congr 1
            simp only [List.length_append, List.length_take]
            omega
        _ = (a.drop (a.length - cap) ++ b).drop b.length := drop_len_add _ _ _
    rw [hl, key]

lemma recordAll_stack (cap : Nat) (texts : List String) (tb : Textbox)
    (h : tb.stack.length ≤ cap) :
    (recordAll cap tb texts).stack = lastN cap (tb.stack ++ texts) := by
  induction texts generalizing tb with
  | nil =>
    simp [recordAll, lastN, Nat.sub_eq_zero_of_le h]
  | cons t ts ih =>
    have hstep : (stackify cap { tb with text := t }).stack
        = lastN cap (tb.stack ++ [t]) := by
      rw [show (stackify cap { tb with text := t }).stack
            = dequeAppend cap tb.stack (getEndLess1c { tb with text := t }) from rfl,
          getEndLess1c_eq]
      exact dequeAppend_eq_lastN cap tb.stack t h
    have hlen : (stackify cap { tb with text := t }).stack.length ≤ cap := by
      rw [hstep]
      unfold lastN
      simp only [List.length_drop]
      omega
    calc (recordAll cap tb (t :: ts)).stack
        = (recordAll cap (stackify cap { tb with text := t }) ts).stack := rfl
      _ = lastN cap ((stackify cap { tb with text := t }).stack ++ ts) :=
          ih (stackify cap { tb with text := t }) hlen
      _ = lastN cap (lastN cap (tb.stack ++ [t]) ++ ts) := by rw [hstep]
      _ = lastN cap ((tb.stack ++ [t]) ++ ts) := lastN_append cap _ ts
      _ = lastN cap (tb.stack ++ t :: ts) := by simp

lemma dequeAppend_length (cap : Nat) (s : List String) (x : String)
    (h : s.length ≤ cap) :
    (dequeAppend cap s x).length = min (s.length + 1) cap := by
  unfold dequeAppend
  by_cases h0 : cap = 0
  · subst h0
    have hs : s.length = 0 := by omega
    simp [hs]
  · by_cases h1 : s.length < cap
    · simp only [h0, h1, if_neg, if_pos, if_true, if_false, ite_false, ite_true,
        List.length_append, List.length_cons, List.length_nil]
      omega
    · have hs : s ≠ [] := by
        intro e
        subst e
        simp at h1
        omega
      simp only [h0, h1, if_neg, if_false, ite_false, List.length_append,
        List.length_tail, List.length_cons, List.length_nil]
      omega

lemma inv_stackify (s : Textbox) (h : TrackerInv s) :
    TrackerInv (stackify MAX_UNDO_DEFAULT s) := by
  obtain ⟨h1, h2, h3⟩ := h
  have hlen := dequeAppend_length MAX_UNDO_DEFAULT s.stack (getEndLess1c s) h3
  refine ⟨?_, ?_, ?_⟩
  · show (if s.stackcursor < 9 then s.stackcursor + 1 else s.stackcursor)
        ≤ (dequeAppend MAX_UNDO_DEFAULT s.stack (getEndLess1c s)).length
    rw [hlen]
    unfold MAX_UNDO_DEFAULT at *
    split <;> omega
  · show (if s.stackcursor < 9 then s.stackcursor + 1 else s.stackcursor) ≤ 9
    split <;> omega
  · show (dequeAppend MAX_UNDO_DEFAULT s.stack (getEndLess1c s)).length
        ≤ MAX_UNDO_DEFAULT
    rw [hlen]
    unfold MAX_UNDO_DEFAULT at *
    omega

lemma inv_undoI (s t : Textbox) (h : TrackerInv s)
    (hok : undoI s = Except.ok t) : TrackerInv t := by
  obtain ⟨h1, h2, h3⟩ := h
  simp only [undoI, clearDoc, insertAtTop] at hok
  split at hok
  · split at hok
    · rename_i s' hget
      cases hok
      have hlt : (if s.stackcursor > 0 then s.stackcursor - 1 else s.stackcursor)
          < s.stack.length := by
        have := List.get?_eq_some.mp hget
        obtain ⟨hl, -⟩ := this
        simpa using hl
      refine ⟨?_, ?_, ?_⟩
      · simpa using Nat.le_of_lt (by simpa using hlt)
      · show (if s.stackcursor > 0 then s.stackcursor - 1 else s.stackcursor) ≤ 9
        split <;> omega
      · simpa using h3
    · exact absurd hok (by simp)
  · cases hok
    exact ⟨h1, h2, h3⟩

lemma inv_redoI (s t : Textbox) (h : TrackerInv s)
    (hok : redoI s = Except.ok t) : TrackerInv t := by
  obtain ⟨h1, h2, h3⟩ := h
  simp only [redoI, clearDoc, insertAtTop] at hok
  split at hok
  · split at hok
    · rename_i s' hget
      cases hok
      have hlt : (if s.stackcursor < 9 then s.stackcursor + 1 else s.stackcursor)
          < s.stack.length := by
        have := List.get?_eq_some.mp hget
        obtain ⟨hl, -⟩ := this
        simpa using hl
      refine ⟨?_, ?_, ?_⟩
      · simpa using Nat.le_of_lt (by simpa using hlt)
      · show (if s.stackcursor < 9 then s.stackcursor + 1 else s.stackcursor) ≤ 9
        split <;> omega
      · simpa using h3
    · exact absurd hok (by simp)
  · cases hok
    exact ⟨h1, h2, h3⟩

lemma reachable_inv (f : String) (s : Textbox) (h : Reachable f s) :
    TrackerInv s := by
  induction h with
  | init =>
    exact ⟨by simp [initState], by simp [initState],
      by simp [initState, MAX_UNDO_DEFAULT]⟩
  | step s t hr hst ih =>
    cases hst with
    | snap => exact inv_stackify s ih
    | undoStep _ hok => exact inv_undoI s t ih hok
    | redoStep _ hok => exact inv_redoI s t ih hok

lemma check_on_key_dirty (cap : Nat) (tb : Textbox) (e : KeyEvent)
    (h : tb.changed_since_saved = true) :
    check_on_key cap tb e = stackify cap tb := by
  simp [check_on_key, h]

lemma runKeys_dirty (cap : Nat) (evs : List KeyEvent) (tb : Textbox)
    (h : tb.changed_since_saved = true) :
    (runKeys cap tb evs).changed_since_saved = true ∧
    (runKeys cap tb evs).title_updates = tb.title_updates := by
  induction evs generalizing tb with
  | nil => exact ⟨h, rfl⟩
  | cons e evs ih =>
    have hrun : runKeys cap tb (e :: evs) = runKeys cap (stackify cap tb) evs := by
      simp [runKeys, List.foldl_cons, check_on_key_dirty cap tb e h]
    rw [hrun]
    exact ih (stackify cap tb) h

/-! ## Claim theorems -/

/-- Claim C5: each `stackify` call appends the current document text
(excluding the implicit trailing newline, via `get("1.0", "end - 1c")`)
to the snapshot deque with FIFO eviction at capacity, so after any
sequence of more than `cap` recorded texts exactly the most recent `cap`
of them remain retrievable. -/
theorem C5_fifo_retention (cap : Nat) (f : String) (texts : List String)
    (h : texts.length > cap) :
    (recordAll cap (initState f) texts).stack
      = texts.drop (texts.length - cap) := by
  have hs := recordAll_stack cap texts (initState f) (by simp [initState])
  simpa [initState, lastN] using hs

/-- Witness for C5 at capacity 2 and three recorded texts: only the two
most recent snapshots remain. -/
theorem C5_fifo_retention_witness :
    (recordAll 2 (initState "untitled") ["a", "ab", "abc"]).stack
      = ["ab", "abc"] := by
  have h := C5_fifo_retention 2 "untitled" ["a", "ab", "abc"] (by decide)
  simpa using h

/-- Claim C6: in every state reachable from the freshly constructed
widget (empty history, cursor 0) by `stackify`, undo and redo calls under
the default capacity, the stack cursor stays between 0 and the number of
stored snapshots. -/
theorem C6_cursor_invariant (f : String) (s : Textbox)
    (h : Reachable f s) :
    0 ≤ s.stackcursor ∧ s.stackcursor ≤ s.stack.length :=
  ⟨Nat.zero_le _, (reachable_inv f s h).1⟩

/-- Witness for C6: the state after one `stackify` from the initial state
is reachable and satisfies the cursor bounds. -/
theorem C6_cursor_invariant_witness :
    0 ≤ (stackify MAX_UNDO_DEFAULT (initState "untitled")).stackcursor ∧
      (stackify MAX_UNDO_DEFAULT (initState "untitled")).stackcursor
        ≤ (stackify MAX_UNDO_DEFAULT (initState "untitled")).stack.length :=
  C6_cursor_invariant "untitled" _
    (Reachable.step _ _ Reachable.init (Step.snap _))


/-- Claim C7: from a clean state (dirty flag false, no title update yet),
running any sequence of key events leaves the dirty flag set exactly when
some event had modifier state 16 (a character-producing edit), and the
tab-label updater is invoked exactly once, with the file name followed by
a space and an asterisk, on that first clean-to-dirty transition;
sequences without a state-16 event never set the flag or touch the
title. -/
theorem C7_dirty_flag (cap : Nat) (tb : Textbox) (evs : List KeyEvent)
    (hclean : tb.changed_since_saved = false)
    (hlog : tb.title_updates = []) :
    (runKeys cap tb evs).changed_since_saved
        = evs.any (fun e => e.state == 16) ∧
    (runKeys cap tb evs).title_updates
        = (if evs.any (fun e => e.state == 16) = true
           then [tb.file_name ++ " *"] else []) := by
  induction evs generalizing tb with
  | nil =>
    refine ⟨?_, ?_⟩
    · simpa [runKeys] using hclean
    · simpa [runKeys] using hlog
  | cons e evs ih =>
    by_cases h16 : e.state = 16
    · have hb : (e.state == 16) = true := by simp [h16]
      have hstep : check_on_key cap tb e = stackify cap (markDirty tb) := by
        simp [check_on_key, markDirty, hclean, h16]
      have hrun : runKeys cap tb (e :: evs)
          = runKeys cap (stackify cap (markDirty tb)) evs := by
        simp [runKeys, List.foldl_cons, hstep]
      have hd := runKeys_dirty cap evs (stackify cap (markDirty tb)) rfl
      rw [hrun]
      refine ⟨?_, ?_⟩
      · rw [hd.1]
        simp [List.any_cons, hb]
      · rw [hd.2]
        show tb.title_updates ++ [tb.file_name ++ " *"] = _
        simp [hlog, List.any_cons, hb]
    · have hb : (e.state == 16) = false := by simp [h16]
      have hstep : check_on_key cap tb e = stackify cap tb := by
        simp [check_on_key, h16]
      have hrun : runKeys cap tb (e :: evs)
          = runKeys cap (stackify cap tb) evs := by
        simp [runKeys, List.foldl_cons, hstep]
      have ihs := ih (stackify cap tb) hclean hlog
      rw [hrun]
      refine ⟨?_, ?_⟩
      · rw [ihs.1]
        simp [List.any_cons, hb]
      · rw [ihs.2]
        show _ = (if (e :: evs).any (fun e => e.state == 16) = true
            then [tb.file_name ++ " *"] else [])
        simp [List.any_cons, hb, stackify]

/-- Witness for C7: a navigation event (state 4) followed by two
character-producing events (state 16) sets the flag once and pushes a
single title update. -/
theorem C7_dirty_flag_witness :
    (runKeys 10 (initState "untitled") [⟨4⟩, ⟨16⟩, ⟨16⟩]).changed_since_saved
        = true ∧
    (runKeys 10 (initState "untitled") [⟨4⟩, ⟨16⟩, ⟨16⟩]).title_updates
        = ["untitled *"] := by
  have h := C7_dirty_flag 10 (initState "untitled") [⟨4⟩, ⟨16⟩, ⟨16⟩] rfl rfl
  refine ⟨?_, ?_⟩
  · rw [h.1]
    decide
  · rw [h.2]
    decide


/-- Claim C8: on a successful intercepted raw operation, the proxy fires
the coalesced change signal exactly when the operation is `insert`,
`replace` or `delete`, or its leading arguments are
`("mark", "set", "insert")`, `("xview", "moveto")`, `("xview", "scroll")`,
`("yview", "moveto")` or `("yview", "scroll")`; every other operation name
generates no notification. -/
theorem C8_classifier (dev : Bool) (op : String) (rest : List String)
    (r : String) :
    (proxyRun dev op rest (Except.ok r)).notified = true ↔
      (op = "insert" ∨ op = "replace" ∨ op = "delete" ∨
       (op = "mark" ∧ rest.take 2 = ["set", "insert"]) ∨
       (op = "xview" ∧ (rest.take 1 = ["moveto"] ∨ rest.take 1 = ["scroll"])) ∨
       (op = "yview" ∧ (rest.take 1 = ["moveto"] ∨ rest.take 1 = ["scroll"]))) := by
  show proxyNotifies op rest = true ↔ _
  match rest with
  | [] => simp [proxyNotifies]
  | [a] =>
    simp [proxyNotifies]
    tauto
  | a :: b :: t =>
    simp [proxyNotifies]
    tauto

/-- Claim C1 (code bug): with a nonzero cursor, `undo()` does not reach
the decrement-and-restore path the claim describes: its first statement
`self.clear()` raises `AttributeError`, because no method `clear` exists
on the class (only `clear_all`).  At cursor 0 it is the no-op the claim
states. -/
theorem C1_undo_nonzero_raises :
    undo { text := "a", stack := ["a"], stackcursor := 1,
           changed_since_saved := true, file_name := "f",
           title_updates := [] }
      = Except.error (PyErr.attributeError "clear") ∧
    undo { text := "a", stack := ["a"], stackcursor := 0,
           changed_since_saved := true, file_name := "f",
           title_updates := [] }
      = Except.ok { text := "a", stack := ["a"], stackcursor := 0,
                    changed_since_saved := true, file_name := "f",
                    title_updates := [] } :=
  ⟨rfl, rfl⟩

/-- Claim C2 (code bug): when `cursor + 1` is a valid snapshot index the
guard of `redo()` passes and its first statement `self.clear()` raises
`AttributeError` (no method `clear` exists), so the cursor is never
incremented and no snapshot is restored; at the last stored snapshot the
guard fails and `redo()` is the no-op the claim states. -/
theorem C2_redo_valid_raises :
    redo { text := "a", stack := ["a", "b"], stackcursor := 0,
           changed_since_saved := true, file_name := "f",
           title_updates := [] }
      = Except.error (PyErr.attributeError "clear") ∧
    redo { text := "b", stack := ["a", "b"], stackcursor := 1,
           changed_since_saved := true, file_name := "f",
           title_updates := [] }
      = Except.ok { text := "b", stack := ["a", "b"], stackcursor := 1,
                    changed_since_saved := true, file_name := "f",
                    title_updates := [] } :=
  ⟨rfl, rfl⟩

/-- Claim C3 (code bug): from a state whose cursor is strictly between 0
and the snapshot count, `undo()` followed by `redo()` cannot restore the
pre-undo text: the undo already raises `AttributeError` at its undefined
`self.clear()` call, so the round trip ends in an exception instead of
the document "b". -/
theorem C3_roundtrip_raises :
    (undo { text := "b", stack := ["a", "b"], stackcursor := 1,
            changed_since_saved := true, file_name := "f",
            title_updates := [] }).bind redo
      = Except.error (PyErr.attributeError "clear") :=
  rfl

/-- Counterexample to claim C4: with configured capacity 3, four
`stackify` calls drive the cursor to 4, not to the claimed cap
`capacity - 1 = 2`; the cursor bound in the code is the hardcoded
literal 9, not `capacity - 1`. -/
theorem C4_cap_counterexample :
    (recordAll 3 (initState "untitled")
        ["a", "ab", "abc", "abcd"]).stackcursor = 4 ∧
    ¬ (recordAll 3 (initState "untitled")
        ["a", "ab", "abc", "abcd"]).stackcursor = 2 :=
  ⟨rfl, by decide⟩

/-- Claim C4 as amended: every `stackify` call advances the cursor by
exactly one until it reaches the hardcoded bound 9 (equal to
`capacity - 1` only for the default capacity 10), independent of the
configured capacity. -/
theorem C4_cursor_capped_at_nine (cap : Nat) (tb : Textbox)
    (h : tb.stackcursor ≤ 9) :
    (stackify cap tb).stackcursor = min (tb.stackcursor + 1) 9 := by
  show (if tb.stackcursor < 9 then tb.stackcursor + 1 else tb.stackcursor) = _
  split <;> omega

/-- Witness for the amended C4: one `stackify` under capacity 3 moves the
cursor from 0 to 1. -/
theorem C4_cursor_capped_at_nine_witness :
    (stackify 3 (initState "untitled")).stackcursor = min (0 + 1) 9 :=
  C4_cursor_capped_at_nine 3 (initState "untitled") (by decide)

/-- Claim C9 (code bug): with `cf.dev_mode` set, a failing underlying
mutation is caught and both the error and the command are printed, but
the local `result` is never assigned, so the proxy still ends in an
exception (`UnboundLocalError` at `return result`); without
`cf.dev_mode` the original fault propagates at once.  No mode catches
and logs without crashing. -/
theorem C9_devmode_catch_still_raises :
    (proxyRun true "insert" ["1.0", "x"]
        (Except.error (PyErr.tclError "bad text index"))).logged
      = ["TclError: bad text index", "insert 1.0 x"] ∧
    (proxyRun true "insert" ["1.0", "x"]
        (Except.error (PyErr.tclError "bad text index"))).result
      = Except.error (PyErr.unboundLocalError "result") ∧
    (proxyRun false "insert" ["1.0", "x"]
        (Except.error (PyErr.tclError "bad text index"))).result
      = Except.error (PyErr.tclError "bad text index") :=
  ⟨rfl, rfl, rfl⟩

/-- Claim C10 (code bug): the very first `undo()` after one `stackify`
from the initial state raises `AttributeError`, because the
document-clearing step calls `self.clear()`, a method defined nowhere on
the widget (the class defines `clear_all`). -/
theorem C10_undo_calls_undefined_method :
    undo (stackify MAX_UNDO_DEFAULT (initState "untitled"))
      = Except.error (PyErr.attributeError "clear") :=
  rfl
